import Mathlib

/-!
Verification development for the Semantic Scholar graph-API client
(`search.py`): a shallow embedding of the resilient request executor
`make_request_with_retry` and of the endpoint adapters built on it,
together with proofs of the behavioural properties stated in the
specification.

Python JSON values are modelled by the inductive `Json`; Python
exceptions raised while projecting a response are modelled by `Option`
(`none` = an exception escapes to the adapter's catch-all handler).
-/

/-- A parsed JSON value, as handled by the Python client. -/
inductive Json where
  | null
  | bool (b : Bool)
  | num (n : Int)
  | str (s : String)
  | arr (items : List Json)
  | obj (fields : List (String × Json))

/-- `d.get(k)` on a Python dict `d` (absent key yields `None`):
`fields` are the dict entries in order. -/
def getField (fields : List (String × Json)) (k : String) : Json :=
  (fields.lookup k).getD Json.null

/-- `d.get(k, default)` on a Python dict `d`; note that a key stored
with value `None` yields `None`, not the default, exactly as in Python. -/
def getFieldD (fields : List (String × Json)) (k : String) (default : Json) : Json :=
  (fields.lookup k).getD default

/-- `j.get(k)` where `j` may be any JSON value: on a non-dict Python
raises `AttributeError` (modelled as `none`). -/
def Json.get? (j : Json) (k : String) : Option Json :=
  match j with
  | .obj fields => some (getField fields k)
  | _ => none

/-- `j.get(k, default)` where `j` may be any JSON value. -/
def Json.getD? (j : Json) (k : String) (default : Json) : Option Json :=
  match j with
  | .obj fields => some (getFieldD fields k default)
  | _ => none

/-- Total field access used in specifications: `Json.null` on a
non-object or an absent key. -/
def Json.get (j : Json) (k : String) : Json :=
  match j with
  | .obj fields => getField fields k
  | _ => .null

/-- The keys of a JSON object, in order. -/
def Json.keys (j : Json) : List String :=
  match j with
  | .obj fields => fields.map Prod.fst
  | _ => []

/-- Iterating a JSON value as a Python list: succeeds only on an array.
(Iterating a non-list either raises immediately or — for a dict or a
string — yields elements on which the subsequent `.get` raises; in every
adapter both routes end in the same catch-all, so `none` is faithful.) -/
def Json.asArr? (j : Json) : Option (List Json) :=
  match j with
  | .arr items => some items
  | _ => none

/-- Python truthiness of a JSON value (`if paper`: `None`, `False`, `0`,
`""`, `[]` and `{}` are falsy). -/
def Json.truthy (j : Json) : Bool :=
  match j with
  | .null => false
  | .bool b => b
  | .num n => n != 0
  | .str s => !s.isEmpty
  | .arr items => !items.isEmpty
  | .obj fields => !fields.isEmpty

/-- Python's `str.upper()` restricted to ASCII, which is all the client
ever passes (`"GET"`, `"POST"`, and caller-supplied method names). -/
def pyUpper (s : String) : String :=
  String.mk (s.data.map Char.toUpper)

/-- A Python list comprehension `[f(x) for x in xs]` whose body may raise
(`none` aborts the whole comprehension, as an exception does). -/
def mapOpt (f : α → Option β) : List α → Option (List β)
  | [] => some []
  | x :: xs => do
    let y ← f x
    let ys ← mapOpt f xs
    pure (y :: ys)

/-! ## The resilient request executor (`make_request_with_retry`) -/

/-- The outcome of one HTTP attempt, as observed by the `try` block:
a status code with a parsed JSON body, a `requests.exceptions.Timeout`,
or any other transport-level `requests.exceptions.RequestException`. -/
inductive Resp where
  | status (code : Nat) (body : Json)
  | timeout
  | transportError

/-- How one call to `make_request_with_retry` terminates.  The names
follow the specification's error taxonomy; each constructor corresponds
to one `return`/`raise` site in the Python source. -/
inductive ExecResult where
  /-- line 44: `return response.json()` on status 200. -/
  | ok (payload : Json)
  /-- line 55: `Exception("Rate limit exceeded. Max retries ... exhausted.")`. -/
  | rateLimitExceeded
  /-- line 68: `Exception("Request timeout. Max retries exhausted.")`. -/
  | requestTimeout
  /-- line 77: `Exception("Request failed after ... retries: ...")`. -/
  | requestFailed
  /-- an HTTP error surfacing directly with its status code (the
  specification's `HttpError`); see `make_request_with_retry` for why the
  source never actually produces it. -/
  | httpError (code : Nat)
  /-- line 40: `ValueError("Unsupported HTTP method: ...")`. -/
  | valueError
  /-- line 79: `Exception("Unexpected error in request retry logic")`. -/
  | internalRetryLogicError

/-- The observable trace of one executor call: its terminal result, the
backoff sleeps performed (in order, as durations), and the number of
HTTP attempts actually issued. -/
structure ExecTrace where
  result : ExecResult
  sleeps : List Rat
  attempts : Nat

/-- The loop body of `make_request_with_retry` (source lines 33–77),
unrolled over the remaining loop iterations `fuel`; `attempt` is the
current value of the loop variable.  Control flow modelled from the
source:

* an unsupported method raises `ValueError` before any HTTP call, and
  `ValueError` is not caught by either `except` clause;
* status 200 returns the parsed body;
* status 429 sleeps `base_delay * 2^attempt` and retries while
  `attempt < max_retries`, else raises the rate-limit exception;
* any other status reaches `response.raise_for_status()`, which raises
  `requests.exceptions.HTTPError` exactly when `400 ≤ code < 600`; that
  exception is a subclass of `RequestException`, so it is caught by the
  handler at line 70 and retried with backoff, raising the generic
  "Request failed" exception on exhaustion — it never surfaces as an
  immediate HTTP error;
* a non-200 status outside 400–599 makes `raise_for_status()` a no-op:
  the iteration falls off the end of the `try` block and the loop
  advances with no sleep, so such a status on every attempt reaches the
  defensive line 79;
* `Timeout` and other `RequestException`s are retried with the same
  backoff, exhausting to their own exceptions. -/
def retryAux (method : String) (resp : Nat → Resp) (max_retries : Nat) (base_delay : Rat) :
    Nat → Nat → ExecTrace
  | _, 0 => ⟨.internalRetryLogicError, [], 0⟩
  | attempt, fuel + 1 =>
    if pyUpper method = "GET" ∨ pyUpper method = "POST" then
      match resp attempt with
      | .status code body =>
        if code = 200 then
          ⟨.ok body, [], 1⟩
        else if code = 429 then
          if attempt < max_retries then
            let rest := retryAux method resp max_retries base_delay (attempt + 1) fuel
            ⟨rest.result, base_delay * 2 ^ attempt :: rest.sleeps, rest.attempts + 1⟩
          else
            ⟨.rateLimitExceeded, [], 1⟩
        else if 400 ≤ code ∧ code < 600 then
          -- raise_for_status() raises HTTPError, caught at line 70 as a RequestException
          if attempt < max_retries then
            let rest := retryAux method resp max_retries base_delay (attempt + 1) fuel
            ⟨rest.result, base_delay * 2 ^ attempt :: rest.sleeps, rest.attempts + 1⟩
          else
            ⟨.requestFailed, [], 1⟩
        else
          -- raise_for_status() returns None; the loop advances without sleeping
          let rest := retryAux method resp max_retries base_delay (attempt + 1) fuel
          ⟨rest.result, rest.sleeps, rest.attempts + 1⟩
      | .timeout =>
        if attempt < max_retries then
          let rest := retryAux method resp max_retries base_delay (attempt + 1) fuel
          ⟨rest.result, base_delay * 2 ^ attempt :: rest.sleeps, rest.attempts + 1⟩
        else
          ⟨.requestTimeout, [], 1⟩
      | .transportError =>
        if attempt < max_retries then
          let rest := retryAux method resp max_retries base_delay (attempt + 1) fuel
          ⟨rest.result, base_delay * 2 ^ attempt :: rest.sleeps, rest.attempts + 1⟩
        else
          ⟨.requestFailed, [], 1⟩
    else
      ⟨.valueError, [], 0⟩

/-- `make_request_with_retry(url, params, json_data, method, max_retries,
base_delay)`: the loop `for attempt in range(max_retries + 1)` runs the
body `max_retries + 1` times starting at attempt 0; falling off the loop
reaches the defensive `raise` at line 79.  The upstream's behaviour on
the `i`-th attempt is the oracle `resp i`; the URL, query parameters and
JSON body do not influence the retry control flow and are carried by the
per-adapter request builders instead. -/
def make_request_with_retry (method : String) (resp : Nat → Resp)
    (max_retries : Nat) (base_delay : Rat) : ExecTrace :=
  retryAux method resp max_retries base_delay 0 (max_retries + 1)

/-! ## Endpoint adapters

Each Python adapter is split into its request-building half (the query
parameters / JSON body it hands to `make_request_with_retry`) and its
response half (a function of the executor's outcome).  The response half
carries the adapter's `try/except` boundary: any exception from the
executor or from the projection produces the adapter's degraded result. -/

/-- The per-author projection `{"name": author.get("name"), "authorId":
author.get("authorId")}` shared by every adapter that projects nested
author lists (source lines 100–101, 126–127, 182–183, 212–213, 279–280,
338–339). `none` models the `AttributeError` on a non-dict. -/
def projectAuthor (author : Json) : Option Json :=
  match author with
  | .obj fs =>
    some (.obj [("name", getField fs "name"), ("authorId", getField fs "authorId")])
  | _ => none

/-- The query parameters built by `search_papers` (source lines 84–88). -/
def search_papers_params (query : String) (limit : Int) : List (String × Json) :=
  [("query", .str query),
   ("limit", .num (min limit 100)),  -- API limit is 100
   ("fields", .str "paperId,title,abstract,year,authors,url,venue,publicationTypes,citationCount")]

/-- The projection of one paper object performed by `search_papers`
(source lines 95–106): nine fixed keys, each read with `.get` (absent
field ⇒ `None`), with the author list recursively projected. -/
def projectSearchPaper (paper : Json) : Option Json :=
  match paper with
  | .obj fs => do
    let authorsItems ← (getFieldD fs "authors" (.arr [])).asArr?
    let authors ← mapOpt projectAuthor authorsItems
    some (.obj
      [("paperId", getField fs "paperId"),
       ("title", getField fs "title"),
       ("abstract", getField fs "abstract"),
       ("year", getField fs "year"),
       ("authors", .arr authors),
       ("url", getField fs "url"),
       ("venue", getField fs "venue"),
       ("publicationTypes", getField fs "publicationTypes"),
       ("citationCount", getField fs "citationCount")])
  | _ => none

/-- The response half of `search_papers` (source lines 90–110):
`papers = response_data.get("data", [])`, project each paper, and on any
exception — from the executor or from the projection — return `[]`. -/
def search_papers_of (outcome : ExecResult) : List Json :=
  match outcome with
  | .ok response_data =>
    match (do
      let data ← response_data.getD? "data" (.arr [])
      let papers ← data.asArr?
      mapOpt projectSearchPaper papers) with
    | some out => out
    | none => []
  | _ => []

/-- The query parameters built by `search_authors` (source lines 236–240). -/
def search_authors_params (query : String) (limit : Int) : List (String × Json) :=
  [("query", .str query),
   ("limit", .num (min limit 100)),  -- API limit is 100
   ("fields", .str "authorId,name,url,affiliations,paperCount,citationCount,hIndex")]

/-- The query parameters built by `get_paper_citations` (source lines 166–169). -/
def get_paper_citations_params (limit : Int) : List (String × Json) :=
  [("limit", .num (min limit 100)),  -- API limit is 100
   ("fields", .str "contexts,isInfluential,title,authors,year,venue")]

/-- The query parameters built by `get_paper_references` (source lines 196–199). -/
def get_paper_references_params (limit : Int) : List (String × Json) :=
  [("limit", .num (min limit 100)),  -- API limit is 100
   ("fields", .str "contexts,isInfluential,title,authors,year,venue")]

/-- The query parameters built by `search_snippets` (source lines 394–398). -/
def search_snippets_params (query : String) (limit : Int) : List (String × Json) :=
  [("query", .str query),
   ("limit", .num (min limit 1000)),  -- API limit is 1000
   ("fields", .str "snippet.text,snippet.snippetKind,snippet.section,snippet.snippetOffset")]

/-- The projection of one citation record by `get_paper_citations`
(source lines 176–187): `citation.get("citingPaper", {})` defaults to an
empty dict only when the key is absent, and the five `.get` calls on it
raise when its value is a non-dict. -/
def projectCitation (citation : Json) : Option Json :=
  match citation with
  | .obj fs =>
    match getFieldD fs "citingPaper" (.obj []) with
    | .obj cp => do
      let authorsItems ← (getFieldD cp "authors" (.arr [])).asArr?
      let authors ← mapOpt projectAuthor authorsItems
      some (.obj
        [("contexts", getFieldD fs "contexts" (.arr [])),
         ("isInfluential", getField fs "isInfluential"),
         ("citingPaper", .obj
           [("paperId", getField cp "paperId"),
            ("title", getField cp "title"),
            ("authors", .arr authors),
            ("year", getField cp "year"),
            ("venue", getField cp "venue")])])
    | _ => none
  | _ => none

/-- The response half of `get_paper_citations` (source lines 171–191). -/
def get_paper_citations_of (outcome : ExecResult) : List Json :=
  match outcome with
  | .ok response_data =>
    match (do
      let data ← response_data.getD? "data" (.arr [])
      let citations ← data.asArr?
      mapOpt projectCitation citations) with
    | some out => out
    | none => []
  | _ => []

/-- The projection of one reference record by `get_paper_references`
(source lines 206–217), identical to the citation projection up to the
`citedPaper` key. -/
def projectReference (reference : Json) : Option Json :=
  match reference with
  | .obj fs =>
    match getFieldD fs "citedPaper" (.obj []) with
    | .obj cp => do
      let authorsItems ← (getFieldD cp "authors" (.arr [])).asArr?
      let authors ← mapOpt projectAuthor authorsItems
      some (.obj
        [("contexts", getFieldD fs "contexts" (.arr [])),
         ("isInfluential", getField fs "isInfluential"),
         ("citedPaper", .obj
           [("paperId", getField cp "paperId"),
            ("title", getField cp "title"),
            ("authors", .arr authors),
            ("year", getField cp "year"),
            ("venue", getField cp "venue")])])
    | _ => none
  | _ => none

/-- The response half of `get_paper_references` (source lines 201–221). -/
def get_paper_references_of (outcome : ExecResult) : List Json :=
  match outcome with
  | .ok response_data =>
    match (do
      let data ← response_data.getD? "data" (.arr [])
      let references ← data.asArr?
      mapOpt projectReference references) with
    | some out => out
    | none => []
  | _ => []

/-- `get_citations_and_references` (source lines 223–231): a pure
composition of the two adapters.  The two underlying executor outcomes
are independent network events, so the composite is a function of both. -/
def get_citations_and_references_of (citOutcome refOutcome : ExecResult) : Json :=
  .obj [("citations", .arr (get_paper_citations_of citOutcome)),
        ("references", .arr (get_paper_references_of refOutcome))]

/-- The projection of the single best match by `search_paper_match`
(source lines 273–285): the search-paper field set preceded by
`matchScore`. -/
def projectMatchPaper (paper : Json) : Option Json :=
  match paper with
  | .obj fs => do
    let authorsItems ← (getFieldD fs "authors" (.arr [])).asArr?
    let authors ← mapOpt projectAuthor authorsItems
    some (.obj
      [("matchScore", getField fs "matchScore"),
       ("paperId", getField fs "paperId"),
       ("title", getField fs "title"),
       ("abstract", getField fs "abstract"),
       ("year", getField fs "year"),
       ("authors", .arr authors),
       ("url", getField fs "url"),
       ("venue", getField fs "venue"),
       ("publicationTypes", getField fs "publicationTypes"),
       ("citationCount", getField fs "citationCount")])
  | _ => none

/-- The response half of `search_paper_match` (source lines 269–290):
`if response_data.get("data"):` takes the first element of a truthy
`data` and projects it; a falsy `data` (absent key, `None`, or an empty
array) yields the explicit no-match error object; any exception yields
the catch-all error object (whose message interpolates the exception and
is abstracted here to its fixed prefix). -/
def search_paper_match_of (outcome : ExecResult) : Json :=
  match outcome with
  | .ok response_data =>
    match (do
      let data ← response_data.get? "data"
      if data.truthy then do
        let items ← data.asArr?
        let paper ← items.head?
        projectMatchPaper paper
      else
        pure (Json.obj [("error", Json.str "No matching paper found")])) with
    | some r => r
    | none => .obj [("error", .str "Failed to find paper match")]
  | _ => .obj [("error", .str "Failed to find paper match")]

/-- The ID-list truncation performed by `get_papers_batch` (source lines
319–321) before the request body is built. -/
def get_papers_batch_ids (paper_ids : List String) : List String :=
  if paper_ids.length > 500 then paper_ids.take 500 else paper_ids

/-- The JSON body `{"ids": paper_ids}` sent by `get_papers_batch`
(source line 327), after truncation. -/
def get_papers_batch_body (paper_ids : List String) : Json :=
  .obj [("ids", .arr ((get_papers_batch_ids paper_ids).map .str))]

/-- The projection of one paper object by `get_papers_batch` (source
lines 333–347): the thirteen-field paper record. -/
def projectBatchPaper (paper : Json) : Option Json :=
  match paper with
  | .obj fs => do
    let authorsItems ← (getFieldD fs "authors" (.arr [])).asArr?
    let authors ← mapOpt projectAuthor authorsItems
    some (.obj
      [("paperId", getField fs "paperId"),
       ("title", getField fs "title"),
       ("abstract", getField fs "abstract"),
       ("year", getField fs "year"),
       ("authors", .arr authors),
       ("url", getField fs "url"),
       ("venue", getField fs "venue"),
       ("publicationTypes", getField fs "publicationTypes"),
       ("citationCount", getField fs "citationCount"),
       ("referenceCount", getField fs "referenceCount"),
       ("influentialCitationCount", getField fs "influentialCitationCount"),
       ("fieldsOfStudy", getField fs "fieldsOfStudy"),
       ("publicationDate", getField fs "publicationDate")])
  | _ => none

/-- The response half of `get_papers_batch` (source lines 329–354):
`isinstance(response_data, list)` guards a comprehension with the filter
`if paper` (Python truthiness), so falsy entries — in particular the
`null` entries the upstream uses for unresolved IDs — are dropped; a
non-list response or any exception yields `[]`. -/
def get_papers_batch_of (outcome : ExecResult) : List Json :=
  match outcome with
  | .ok response_data =>
    match response_data with
    | .arr items =>
      match mapOpt projectBatchPaper (items.filter Json.truthy) with
      | some out => out
      | none => []
    | _ => []
  | _ => []

/-- The ID-list truncation performed by `get_authors_batch` (source
lines 361–363). -/
def get_authors_batch_ids (author_ids : List String) : List String :=
  if author_ids.length > 1000 then author_ids.take 1000 else author_ids

/-- The JSON body `{"ids": author_ids}` sent by `get_authors_batch`
(source line 369), after truncation. -/
def get_authors_batch_body (author_ids : List String) : Json :=
  .obj [("ids", .arr ((get_authors_batch_ids author_ids).map .str))]

/-- The projection of one author object by `get_authors_batch` (source
lines 375–383): seven flat fields. -/
def projectBatchAuthor (author : Json) : Option Json :=
  match author with
  | .obj fs =>
    some (.obj
      [("authorId", getField fs "authorId"),
       ("name", getField fs "name"),
       ("url", getField fs "url"),
       ("affiliations", getField fs "affiliations"),
       ("paperCount", getField fs "paperCount"),
       ("citationCount", getField fs "citationCount"),
       ("hIndex", getField fs "hIndex")])
  | _ => none

/-- The response half of `get_authors_batch` (source lines 371–389),
with the same `if author` truthiness filter as the papers batch. -/
def get_authors_batch_of (outcome : ExecResult) : List Json :=
  match outcome with
  | .ok response_data =>
    match response_data with
    | .arr items =>
      match mapOpt projectBatchAuthor (items.filter Json.truthy) with
      | some out => out
      | none => []
    | _ => []
  | _ => []

/-- The declared key set of a `search_papers` result object, in order. -/
def searchPaperKeys : List String :=
  ["paperId", "title", "abstract", "year", "authors", "url", "venue",
   "publicationTypes", "citationCount"]

/-- The scalar (non-recursive) keys of a `search_papers` result object:
each is copied verbatim from the upstream paper object. -/
def searchPaperScalarKeys : List String :=
  ["paperId", "title", "abstract", "year", "url", "venue",
   "publicationTypes", "citationCount"]

/-! ## Executor lemmas -/

/-- An upstream response of the kind the specification's taxonomy
anticipates: status 200, status 429, an HTTP error status 400–599, a
timeout, or a transport failure. -/
def Resp.expected : Resp → Prop
  | .status code _ => code = 200 ∨ code = 429 ∨ (400 ≤ code ∧ code < 600)
  | .timeout => True
  | .transportError => True

theorem retryAux_always429 (method : String) (resp : Nat → Resp) (mr : Nat) (bd : Rat)
    (hm : pyUpper method = "GET" ∨ pyUpper method = "POST")
    (h429 : ∀ i, ∃ b, resp i = Resp.status 429 b) :
    ∀ fuel attempt, attempt ≤ mr → attempt + fuel = mr + 1 →
      (retryAux method resp mr bd attempt fuel).result = ExecResult.rateLimitExceeded ∧
      (retryAux method resp mr bd attempt fuel).attempts = fuel := by
  intro fuel
  induction fuel with
  | zero => intro attempt hle hfuel; omega
  | succ f ih =>
    intro attempt hle hfuel
    obtain ⟨b, hb⟩ := h429 attempt
    by_cases hlt : attempt < mr
    · have := ih (attempt + 1) (by omega) (by omega)
      simp [retryAux, hb, hm, hlt, this.1, this.2]
    · have hf : f = 0 := by omega
      subst hf
      simp [retryAux, hb, hm, hlt]

theorem retryAux_429_then_200 (method : String) (resp : Nat → Resp) (mr : Nat) (bd : Rat)
    (p : Json) (hm : pyUpper method = "GET" ∨ pyUpper method = "POST") :
    ∀ j attempt fuel, attempt + fuel = mr + 1 → attempt + j ≤ mr →
      (∀ i, i < j → ∃ b, resp (attempt + i) = Resp.status 429 b) →
      resp (attempt + j) = Resp.status 200 p →
      retryAux method resp mr bd attempt fuel =
        ⟨ExecResult.ok p, (List.range j).map (fun i => bd * 2 ^ (attempt + i)), j + 1⟩ := by
  intro j
  induction j with
  | zero =>
    intro attempt fuel hfuel hle h429 h200
    obtain ⟨f, rfl⟩ : ∃ f, fuel = f + 1 := ⟨fuel - 1, by omega⟩
    simp only [Nat.add_zero] at h200
    simp [retryAux, hm, h200]
  | succ j' ih =>
    intro attempt fuel hfuel hle h429 h200
    obtain ⟨f, rfl⟩ : ∃ f, fuel = f + 1 := ⟨fuel - 1, by omega⟩
    obtain ⟨b, hb⟩ := h429 0 (by omega)
    simp only [Nat.add_zero] at hb
    have hlt : attempt < mr := by omega
    have hrest := ih (attempt + 1) f (by omega) (by omega)
      (fun i hi => by
        obtain ⟨b', hb'⟩ := h429 (i + 1) (by omega)
        exact ⟨b', by rw [show attempt + 1 + i = attempt + (i + 1) by omega]; exact hb'⟩)
      (by rw [show attempt + 1 + j' = attempt + (j' + 1) by omega]; exact h200)
    simp [retryAux, hm, hb, hlt, hrest]
    rw [List.range_succ_eq_map, List.map_cons, List.map_map]
    congr 1
    apply List.map_congr_left
    intro a ha
    simp only [Function.comp_apply]
    rw [show attempt + 1 + a = attempt + (a + 1) from by omega]

theorem retryAux_expected_terminates (method : String) (resp : Nat → Resp) (mr : Nat) (bd : Rat)
    (hm : pyUpper method = "GET" ∨ pyUpper method = "POST")
    (hresp : ∀ i, (resp i).expected) :
    ∀ fuel attempt, attempt ≤ mr → attempt + fuel = mr + 1 →
      (∃ p, (retryAux method resp mr bd attempt fuel).result = ExecResult.ok p) ∨
      (retryAux method resp mr bd attempt fuel).result = ExecResult.rateLimitExceeded ∨
      (retryAux method resp mr bd attempt fuel).result = ExecResult.requestTimeout ∨
      (retryAux method resp mr bd attempt fuel).result = ExecResult.requestFailed ∨
      ∃ s, (retryAux method resp mr bd attempt fuel).result = ExecResult.httpError s := by
  intro fuel
  induction fuel with
  | zero => intro attempt hle hfuel; omega
  | succ f ih =>
    intro attempt hle hfuel
    have hr := hresp attempt
    by_cases hlt : attempt < mr
    · have hrec := ih (attempt + 1) (by omega) (by omega)
      cases he : resp attempt with
      | status code body =>
        rw [he] at hr
        rcases hr with h200 | h429 | hrange
        · subst h200; left; exact ⟨body, by simp [retryAux, hm, he]⟩
        · subst h429
          simp only [retryAux, hm, he, if_true, if_pos hlt]
          simpa using hrec
        · have hne200 : code ≠ 200 := by omega
          by_cases h429 : code = 429
          · subst h429
            simp only [retryAux, hm, he, if_pos hlt]
            simpa using hrec
          · simp only [retryAux, hm, he, if_neg hne200, if_neg h429, if_pos hrange,
              if_pos hlt]
            simpa using hrec
      | timeout =>
        simp only [retryAux, hm, he, if_pos hlt]
        simpa using hrec
      | transportError =>
        simp only [retryAux, hm, he, if_pos hlt]
        simpa using hrec
    · have hf : f = 0 := by omega
      subst hf
      cases he : resp attempt with
      | status code body =>
        rw [he] at hr
        rcases hr with h200 | h429 | hrange
        · subst h200; left; exact ⟨body, by simp [retryAux, hm, he]⟩
        · subst h429; right; left; simp [retryAux, hm, he, hlt]
        · by_cases h429 : code = 429
          · subst h429; right; left; simp [retryAux, hm, he, hlt]
          · have hne200 : code ≠ 200 := by omega
            right; right; right; left
            simp [retryAux, hm, he, hne200, h429, hrange, hlt]
      | timeout => right; right; left; simp [retryAux, hm, he, hlt]
      | transportError => right; right; right; left; simp [retryAux, hm, he, hlt]

/-! ## Projection lemmas -/

theorem mapOpt_eq_some_of_forall_isSome (f : α → Option β) (l : List α)
    (h : ∀ a ∈ l, (f a).isSome = true) :
    ∃ out, mapOpt f l = some out ∧ List.Forall₂ (fun a b => f a = some b) l out := by
  induction l with
  | nil => exact ⟨[], rfl, List.Forall₂.nil⟩
  | cons x xs ih =>
    obtain ⟨y, hy⟩ := Option.isSome_iff_exists.mp (h x (by simp))
    obtain ⟨ys, hys, hfa⟩ := ih (fun a ha => h a (by simp [ha]))
    exact ⟨y :: ys, by simp [mapOpt, hy, hys], List.Forall₂.cons hy hfa⟩

theorem projectSearchPaper_spec (p o : Json) (h : projectSearchPaper p = some o) :
    o.keys = searchPaperKeys ∧ ∀ k ∈ searchPaperScalarKeys, o.get? k = p.get? k := by
  cases p with
  | obj fs =>
    simp only [projectSearchPaper, Option.bind_eq_bind, Option.bind_eq_some] at h
    obtain ⟨items, hitems, authors, hauthors, ho⟩ := h
    obtain rfl := Option.some_injective _ ho.symm
    constructor
    · rfl
    · intro k hk
      fin_cases hk <;> rfl
  | null => simp [projectSearchPaper] at h
  | bool b => simp [projectSearchPaper] at h
  | num n => simp [projectSearchPaper] at h
  | str s => simp [projectSearchPaper] at h
  | arr items => simp [projectSearchPaper] at h

/-! ## Claim theorems: the executor -/

/-- C1: for every retry budget `r ≥ 0`, if every HTTP attempt returns
status 429, then `make_request_with_retry` makes exactly `r + 1`
attempts and terminates with the rate-limit-exceeded error — not any
other error and not a normal return. -/
theorem executor_always_429_exhausts_budget
    (method : String) (r : Nat) (bd : Rat) (resp : Nat → Resp)
    (hm : pyUpper method = "GET" ∨ pyUpper method = "POST")
    (h429 : ∀ i, ∃ b, resp i = Resp.status 429 b) :
    (make_request_with_retry method resp r bd).result = ExecResult.rateLimitExceeded ∧
    (make_request_with_retry method resp r bd).attempts = r + 1 :=
  retryAux_always429 method resp r bd hm h429 (r + 1) 0 (by omega) (by omega)

theorem executor_always_429_exhausts_budget_witness :
    (make_request_with_retry "GET" (fun _ => Resp.status 429 Json.null) 2 1).result
        = ExecResult.rateLimitExceeded ∧
    (make_request_with_retry "GET" (fun _ => Resp.status 429 Json.null) 2 1).attempts = 2 + 1 :=
  executor_always_429_exhausts_budget "GET" 2 1 (fun _ => Resp.status 429 Json.null)
    (Or.inl rfl) (fun _ => ⟨Json.null, rfl⟩)

/-- C2: for every retry budget `r` and every `k ≤ r`, if the first `k`
attempts return 429 and attempt `k` returns 200 with payload `p`, the
executor returns `p` after exactly `k` backoff sleeps of durations
`bd * 2 ^ 0, …, bd * 2 ^ (k - 1)` in that order (and `k + 1` attempts). -/
theorem executor_429_then_success
    (method : String) (r k : Nat) (bd : Rat) (p : Json) (resp : Nat → Resp)
    (hm : pyUpper method = "GET" ∨ pyUpper method = "POST")
    (hk : k ≤ r)
    (h429 : ∀ i, i < k → ∃ b, resp i = Resp.status 429 b)
    (h200 : resp k = Resp.status 200 p) :
    make_request_with_retry method resp r bd =
      ⟨ExecResult.ok p, (List.range k).map (fun i => bd * 2 ^ i), k + 1⟩ := by
  have h := retryAux_429_then_200 method resp r bd p hm k 0 (r + 1) (by omega) (by omega)
    (fun i hi => by simpa using h429 i hi) (by simpa using h200)
  simpa [make_request_with_retry] using h

theorem executor_429_then_success_witness :
    make_request_with_retry "GET"
        (fun i => if i < 2 then Resp.status 429 Json.null else Resp.status 200 (Json.str "ok"))
        3 1 =
      ⟨ExecResult.ok (Json.str "ok"), (List.range 2).map (fun i => (1 : Rat) * 2 ^ i), 2 + 1⟩ :=
  executor_429_then_success "GET" 3 2 1 (Json.str "ok") _
    (Or.inl rfl) (by omega)
    (fun i hi => ⟨Json.null, by simp [hi]⟩)
    (by norm_num)

/-- C3: the claim says a non-200, non-429 status (e.g. 403) fails
immediately with an HTTP error, zero sleeps and no further attempts.
The code instead retries it: `response.raise_for_status()` raises
`requests.exceptions.HTTPError`, a subclass of `RequestException`, which
the handler at line 70 catches and retries with backoff.  At the failing
input — every attempt returning 403, the default budget 5 and base delay
1 — the executor performs 5 backoff sleeps, makes 6 attempts, and
terminates with the generic retries-exhausted failure, not an immediate
HTTP error. -/
theorem executor_retries_403 :
    (make_request_with_retry "GET" (fun _ => Resp.status 403 Json.null) 5 1).result
        = ExecResult.requestFailed ∧
    (make_request_with_retry "GET" (fun _ => Resp.status 403 Json.null) 5 1).attempts = 6 ∧
    (make_request_with_retry "GET" (fun _ => Resp.status 403 Json.null) 5 1).sleeps
        = [1, 2, 4, 8, 16] := by
  refine ⟨rfl, rfl, ?_⟩
  show [(1 : Rat) * 2 ^ 0, 1 * 2 ^ 1, 1 * 2 ^ 2, 1 * 2 ^ 3, 1 * 2 ^ 4] = [1, 2, 4, 8, 16]
  norm_num

/-- C4 counterexample: the defensive `InternalRetryLogicError` branch at
line 79 is reachable.  A status that is neither 200 nor 429 nor in
400–599 — here 204 — makes `raise_for_status()` a no-op, so the loop
iteration falls through without returning, raising, or sleeping; when
every attempt does this, the loop completes and line 79 runs. -/
theorem executor_reaches_defensive_branch :
    (make_request_with_retry "GET" (fun _ => Resp.status 204 Json.null) 0 1).result
      = ExecResult.internalRetryLogicError := rfl

/-- C4 (amended): if every upstream attempt yields status 200, status
429, a status in 400–599, a timeout, or a transport failure, then
`make_request_with_retry` terminates by returning a 200 payload or with
one of the rate-limit, timeout, request-failed, or HTTP errors — the
defensive branch is not reached.  (The original claim, quantifying over
all statuses, is refuted by `executor_reaches_defensive_branch`.) -/
theorem executor_expected_responses_terminate
    (method : String) (r : Nat) (bd : Rat) (resp : Nat → Resp)
    (hm : pyUpper method = "GET" ∨ pyUpper method = "POST")
    (hresp : ∀ i, (resp i).expected) :
    (∃ p, (make_request_with_retry method resp r bd).result = ExecResult.ok p) ∨
    (make_request_with_retry method resp r bd).result = ExecResult.rateLimitExceeded ∨
    (make_request_with_retry method resp r bd).result = ExecResult.requestTimeout ∨
    (make_request_with_retry method resp r bd).result = ExecResult.requestFailed ∨
    ∃ s, (make_request_with_retry method resp r bd).result = ExecResult.httpError s :=
  retryAux_expected_terminates method resp r bd hm hresp (r + 1) 0 (by omega) (by omega)

theorem executor_expected_responses_terminate_witness :
    (∃ p, (make_request_with_retry "GET" (fun _ => Resp.timeout) 1 1).result = ExecResult.ok p) ∨
    (make_request_with_retry "GET" (fun _ => Resp.timeout) 1 1).result
        = ExecResult.rateLimitExceeded ∨
    (make_request_with_retry "GET" (fun _ => Resp.timeout) 1 1).result
        = ExecResult.requestTimeout ∨
    (make_request_with_retry "GET" (fun _ => Resp.timeout) 1 1).result
        = ExecResult.requestFailed ∨
    ∃ s, (make_request_with_retry "GET" (fun _ => Resp.timeout) 1 1).result
        = ExecResult.httpError s :=
  executor_expected_responses_terminate "GET" 1 1 (fun _ => Resp.timeout)
    (Or.inl rfl) (fun _ => trivial)

/-- C10: a method string that upper-cases to neither GET nor POST makes
the executor raise `ValueError` during the first loop iteration, before
any HTTP call and any backoff sleep, for every retry budget; the
`except` clauses for `Timeout` and `RequestException` do not absorb a
`ValueError`, so it is not converted into a retry failure. -/
theorem executor_rejects_unsupported_method
    (method : String) (resp : Nat → Resp) (r : Nat) (bd : Rat)
    (hget : pyUpper method ≠ "GET") (hpost : pyUpper method ≠ "POST") :
    make_request_with_retry method resp r bd = ⟨ExecResult.valueError, [], 0⟩ := by
  have hinv : ¬(pyUpper method = "GET" ∨ pyUpper method = "POST") := by tauto
  simp [make_request_with_retry, retryAux, hinv]

theorem executor_rejects_unsupported_method_witness :
    pyUpper "PUT" ≠ "GET" ∧ pyUpper "PUT" ≠ "POST" ∧
    make_request_with_retry "PUT" (fun _ => Resp.timeout) 3 1
      = ⟨ExecResult.valueError, [], 0⟩ :=
  ⟨by decide, by decide,
    executor_rejects_unsupported_method "PUT" (fun _ => Resp.timeout) 3 1
      (by decide) (by decide)⟩

/-! ## Claim theorems: the adapters -/

/-- C5: for every search-papers payload whose `data` array holds the
paper objects `ps`, `search_papers` returns exactly `ps.length`
projected objects; each carries exactly the declared key set
(`paperId, title, abstract, year, authors, url, venue,
publicationTypes, citationCount`) and no upstream-only keys, and every
scalar field is copied by `.get` from the upstream object — so a field
missing upstream appears under its key with the absent value `null`,
never as a fabricated default and never by omitting the key. -/
theorem search_papers_projects_each_paper (payload : Json) (ps : List Json)
    (hdata : payload.getD? "data" (Json.arr []) = some (Json.arr ps))
    (hwf : ∀ p ∈ ps, (projectSearchPaper p).isSome = true) :
    (search_papers_of (ExecResult.ok payload)).length = ps.length ∧
    List.Forall₂ (fun p o =>
        o.keys = searchPaperKeys ∧ ∀ k ∈ searchPaperScalarKeys, o.get? k = p.get? k)
      ps (search_papers_of (ExecResult.ok payload)) := by
  obtain ⟨out, hmap, hfa⟩ := mapOpt_eq_some_of_forall_isSome projectSearchPaper ps hwf
  have hout : search_papers_of (ExecResult.ok payload) = out := by
    simp [search_papers_of, hdata, Json.asArr?, hmap]
  rw [hout]
  exact ⟨hfa.length_eq.symm,
    List.Forall₂.imp (fun p o hpo => projectSearchPaper_spec p o hpo) hfa⟩

theorem search_papers_projects_each_paper_witness :
    (search_papers_of (ExecResult.ok (Json.obj [("data", Json.arr
        [Json.obj [("paperId", Json.str "p1"), ("title", Json.str "One")],
         Json.obj [("venue", Json.str "V"),
                   ("authors", Json.arr [Json.obj [("name", Json.str "Ada")]])]])]))).length
      = [Json.obj [("paperId", Json.str "p1"), ("title", Json.str "One")],
         Json.obj [("venue", Json.str "V"),
                   ("authors", Json.arr [Json.obj [("name", Json.str "Ada")]])]].length ∧
    List.Forall₂ (fun p o =>
        o.keys = searchPaperKeys ∧ ∀ k ∈ searchPaperScalarKeys, o.get? k = p.get? k)
      [Json.obj [("paperId", Json.str "p1"), ("title", Json.str "One")],
       Json.obj [("venue", Json.str "V"),
                 ("authors", Json.arr [Json.obj [("name", Json.str "Ada")]])]]
      (search_papers_of (ExecResult.ok (Json.obj [("data", Json.arr
        [Json.obj [("paperId", Json.str "p1"), ("title", Json.str "One")],
         Json.obj [("venue", Json.str "V"),
                   ("authors", Json.arr [Json.obj [("name", Json.str "Ada")]])]])]))) :=
  search_papers_projects_each_paper _ _ rfl (by decide)

/-- C6: `search_paper_match` returns the explicit no-match error object
whenever the payload's `data` is an empty array or the `data` key is
absent (Python `dict.get` then yields `None`, which is falsy), and when
`data` is non-empty it projects exactly the first element of the array;
no exception escapes to the caller — the model is total, every outcome
mapping to a JSON object. -/
theorem search_paper_match_first_or_no_match (payload : Json) :
    ((payload.get? "data" = some (Json.arr []) ∨ payload.get? "data" = some Json.null) →
      search_paper_match_of (ExecResult.ok payload)
        = Json.obj [("error", Json.str "No matching paper found")]) ∧
    (∀ p rest o, payload.get? "data" = some (Json.arr (p :: rest)) →
      projectMatchPaper p = some o →
      search_paper_match_of (ExecResult.ok payload) = o) := by
  constructor
  · rintro (h | h) <;> simp [search_paper_match_of, h, Json.truthy]
  · intro p rest o hd hp
    simp [search_paper_match_of, hd, Json.truthy, Json.asArr?, hp]

theorem search_paper_match_first_or_no_match_witness :
    search_paper_match_of (ExecResult.ok (Json.obj [("data", Json.arr [])]))
      = Json.obj [("error", Json.str "No matching paper found")] ∧
    search_paper_match_of (ExecResult.ok (Json.obj [("data", Json.arr [Json.obj []])]))
      = Json.obj
          [("matchScore", Json.null), ("paperId", Json.null), ("title", Json.null),
           ("abstract", Json.null), ("year", Json.null), ("authors", Json.arr []),
           ("url", Json.null), ("venue", Json.null), ("publicationTypes", Json.null),
           ("citationCount", Json.null)] :=
  ⟨(search_paper_match_first_or_no_match (Json.obj [("data", Json.arr [])])).1 (Or.inl rfl),
   (search_paper_match_first_or_no_match (Json.obj [("data", Json.arr [Json.obj []])])).2
     (Json.obj []) [] _ rfl rfl⟩

/-- C7: before the request body is built, `get_papers_batch` truncates
its ID list to the first 500 entries and `get_authors_batch` to the
first 1000 (lists at or under the cap are sent unchanged), and each
batch adapter's comprehension filter `if paper` / `if author` drops
every `null` entry of a list-shaped upstream response (null is falsy),
projecting exactly the truthy entries in order. -/
theorem batch_truncation_and_null_filter :
    (∀ ids : List String, 500 < ids.length →
      get_papers_batch_body ids = Json.obj [("ids", Json.arr ((ids.take 500).map Json.str))]) ∧
    (∀ ids : List String, ids.length ≤ 500 →
      get_papers_batch_body ids = Json.obj [("ids", Json.arr (ids.map Json.str))]) ∧
    (∀ ids : List String, 1000 < ids.length →
      get_authors_batch_body ids = Json.obj [("ids", Json.arr ((ids.take 1000).map Json.str))]) ∧
    (∀ ids : List String, ids.length ≤ 1000 →
      get_authors_batch_body ids = Json.obj [("ids", Json.arr (ids.map Json.str))]) ∧
    Json.truthy Json.null = false ∧
    (∀ items : List Json,
      (∀ j ∈ items, j.truthy = true → (projectBatchPaper j).isSome = true) →
      List.Forall₂ (fun p o => projectBatchPaper p = some o)
        (items.filter Json.truthy) (get_papers_batch_of (ExecResult.ok (Json.arr items)))) ∧
    (∀ items : List Json,
      (∀ j ∈ items, j.truthy = true → (projectBatchAuthor j).isSome = true) →
      List.Forall₂ (fun a o => projectBatchAuthor a = some o)
        (items.filter Json.truthy) (get_authors_batch_of (ExecResult.ok (Json.arr items)))) := by
  refine ⟨?_, ?_, ?_, ?_, rfl, ?_, ?_⟩
  · intro ids h
    rw [get_papers_batch_body, get_papers_batch_ids, if_pos h]
  · intro ids h
    rw [get_papers_batch_body, get_papers_batch_ids, if_neg (by omega)]
  · intro ids h
    rw [get_authors_batch_body, get_authors_batch_ids, if_pos h]
  · intro ids h
    rw [get_authors_batch_body, get_authors_batch_ids, if_neg (by omega)]
  · intro items hwf
    obtain ⟨out, hmap, hfa⟩ := mapOpt_eq_some_of_forall_isSome projectBatchPaper
      (items.filter Json.truthy)
      (fun j hj => hwf j (List.mem_of_mem_filter hj) (List.of_mem_filter hj))
    have hout : get_papers_batch_of (ExecResult.ok (Json.arr items)) = out := by
      simp [get_papers_batch_of, hmap]
    rw [hout]
    exact hfa
  · intro items hwf
    obtain ⟨out, hmap, hfa⟩ := mapOpt_eq_some_of_forall_isSome projectBatchAuthor
      (items.filter Json.truthy)
      (fun j hj => hwf j (List.mem_of_mem_filter hj) (List.of_mem_filter hj))
    have hout : get_authors_batch_of (ExecResult.ok (Json.arr items)) = out := by
      simp [get_authors_batch_of, hmap]
    rw [hout]
    exact hfa

set_option maxRecDepth 8000 in
theorem batch_truncation_and_null_filter_witness :
    get_papers_batch_body (List.replicate 501 "x")
      = Json.obj [("ids", Json.arr (((List.replicate 501 "x").take 500).map Json.str))] ∧
    get_authors_batch_body (List.replicate 1001 "x")
      = Json.obj [("ids", Json.arr (((List.replicate 1001 "x").take 1000).map Json.str))] ∧
    List.Forall₂ (fun p o => projectBatchPaper p = some o)
      ([Json.null, Json.obj [("paperId", Json.str "a")], Json.null].filter Json.truthy)
      (get_papers_batch_of (ExecResult.ok (Json.arr
        [Json.null, Json.obj [("paperId", Json.str "a")], Json.null]))) :=
  ⟨batch_truncation_and_null_filter.1 _ (by simp),
   batch_truncation_and_null_filter.2.2.1 _ (by simp),
   batch_truncation_and_null_filter.2.2.2.2.2.1 _ (by decide)⟩

/-- C8: a `limit` argument above an endpoint's cap is silently clamped
to the cap in the outgoing query parameters: `search_papers`,
`search_authors`, `get_paper_citations` and `get_paper_references` send
`limit = 100`, and `search_snippets` sends `limit = 1000`. -/
theorem limit_clamped_to_cap (q : String) (limit : Int) :
    (100 < limit →
      (search_papers_params q limit).lookup "limit" = some (Json.num 100) ∧
      (search_authors_params q limit).lookup "limit" = some (Json.num 100) ∧
      (get_paper_citations_params limit).lookup "limit" = some (Json.num 100) ∧
      (get_paper_references_params limit).lookup "limit" = some (Json.num 100)) ∧
    (1000 < limit →
      (search_snippets_params q limit).lookup "limit" = some (Json.num 1000)) := by
  constructor
  · intro h
    have h100 : min limit 100 = 100 := min_eq_right (by omega)
    refine ⟨?_, ?_, ?_, ?_⟩ <;>
      · show some (Json.num (min limit 100)) = some (Json.num 100)
        rw [h100]
  · intro h
    have h1000 : min limit 1000 = 1000 := min_eq_right (by omega)
    show some (Json.num (min limit 1000)) = some (Json.num 1000)
    rw [h1000]

theorem limit_clamped_to_cap_witness :
    ((search_papers_params "x" 1500).lookup "limit" = some (Json.num 100) ∧
     (search_authors_params "x" 1500).lookup "limit" = some (Json.num 100) ∧
     (get_paper_citations_params 1500).lookup "limit" = some (Json.num 100) ∧
     (get_paper_references_params 1500).lookup "limit" = some (Json.num 100)) ∧
    (search_snippets_params "x" 1500).lookup "limit" = some (Json.num 1000) :=
  ⟨(limit_clamped_to_cap "x" 1500).1 (by norm_num),
   (limit_clamped_to_cap "x" 1500).2 (by norm_num)⟩

/-- C9: `get_citations_and_references` returns an object with exactly
the keys `citations` and `references`, each bound to the list produced
by the corresponding adapter; each key's value is a function of its own
fetch outcome alone, and a failed fetch degrades to `[]` for its key
without affecting the other. -/
theorem citations_and_references_composite (citOutcome refOutcome : ExecResult) :
    (get_citations_and_references_of citOutcome refOutcome).keys
        = ["citations", "references"] ∧
    (get_citations_and_references_of citOutcome refOutcome).get "citations"
        = Json.arr (get_paper_citations_of citOutcome) ∧
    (get_citations_and_references_of citOutcome refOutcome).get "references"
        = Json.arr (get_paper_references_of refOutcome) ∧
    (∀ e : ExecResult, (∀ p, e ≠ ExecResult.ok p) →
      get_paper_citations_of e = [] ∧ get_paper_references_of e = []) := by
  refine ⟨rfl, rfl, rfl, ?_⟩
  intro e he
  cases e with
  | ok p => exact absurd rfl (he p)
  | rateLimitExceeded => exact ⟨rfl, rfl⟩
  | requestTimeout => exact ⟨rfl, rfl⟩
  | requestFailed => exact ⟨rfl, rfl⟩
  | httpError s => exact ⟨rfl, rfl⟩
  | valueError => exact ⟨rfl, rfl⟩
  | internalRetryLogicError => exact ⟨rfl, rfl⟩

theorem citations_and_references_composite_witness :
    (get_citations_and_references_of (ExecResult.ok (Json.obj [("data", Json.arr [])]))
        ExecResult.requestTimeout).keys = ["citations", "references"] ∧
    (get_citations_and_references_of (ExecResult.ok (Json.obj [("data", Json.arr [])]))
        ExecResult.requestTimeout).get "citations"
      = Json.arr (get_paper_citations_of (ExecResult.ok (Json.obj [("data", Json.arr [])]))) ∧
    (get_citations_and_references_of (ExecResult.ok (Json.obj [("data", Json.arr [])]))
        ExecResult.requestTimeout).get "references"
      = Json.arr (get_paper_references_of ExecResult.requestTimeout) ∧
    (get_paper_citations_of ExecResult.requestTimeout = [] ∧
     get_paper_references_of ExecResult.requestTimeout = []) :=
  ⟨(citations_and_references_composite (ExecResult.ok (Json.obj [("data", Json.arr [])]))
      ExecResult.requestTimeout).1,
   (citations_and_references_composite (ExecResult.ok (Json.obj [("data", Json.arr [])]))
      ExecResult.requestTimeout).2.1,
   (citations_and_references_composite (ExecResult.ok (Json.obj [("data", Json.arr [])]))
      ExecResult.requestTimeout).2.2.1,
   (citations_and_references_composite (ExecResult.ok (Json.obj [("data", Json.arr [])]))
      ExecResult.requestTimeout).2.2.2 ExecResult.requestTimeout
     (fun _ h => ExecResult.noConfusion h)⟩
